import Mathlib

/-!
# Verification of the Gemini MCP server's credential resolution and
# API-key rotation core

Shallow embedding of the credential resolver (`resolveApiKeys`), the error
classifier and rotating retry executor (`retryWithApiKeyRotation`), the
`analyze_local_folder` handler's empty-pool guard, and the
`check_api_key_status` rotation preview, translated from the server's
TypeScript source.  Wall-clock time is modelled explicitly: each attempt's
operation consumes a caller-supplied duration and every rotation adds the
fixed 1000 ms delay; the loop re-checks the elapsed time against the budget
before every attempt, exactly as the source loop does.

JavaScript string primitives used by the source (`includes`, `split(',')`,
`trim`) are embedded as structurally recursive Lean functions over the
string's character list, so that every definition evaluates inside the
kernel.
-/

/-- `sub` occurs contiguously inside `s` (as Lean `String`s):
the propositional form of JavaScript's `String.prototype.includes`. -/
def ContainsSub (s sub : String) : Prop :=
  ∃ pre post : String, s = pre ++ sub ++ post

/-- Boolean substring test embedding JavaScript's
`String.prototype.includes` (case-sensitive). -/
def strIncludes (s pat : String) : Bool :=
  decide (pat.data <:+: s.data)

/-- Whitespace stripped by JavaScript's `String.prototype.trim`
(the WhiteSpace and LineTerminator productions). -/
def isJsWhitespace (c : Char) : Bool :=
  c = ' ' || c = '\t' || c = '\n' || c = '\r' ||
  c = '\x0b' || c = '\x0c' || c = '\u00A0' || c = '\uFEFF' ||
  c = '\u1680' || ('\u2000' ≤ c && c ≤ '\u200A') ||
  c = '\u2028' || c = '\u2029' || c = '\u202F' || c = '\u205F' || c = '\u3000'

/-- Embeds JavaScript's `String.prototype.trim`: strip whitespace from
both ends. -/
def jsTrim (s : String) : String :=
  ⟨((s.data.dropWhile isJsWhitespace).reverse.dropWhile isJsWhitespace).reverse⟩

/-- Splits a character list at every `','`, embedding the behaviour of
JavaScript's `split(',')` on the string's characters:
`"a,,b"` gives `["a", "", "b"]` and `""` gives `[""]`. -/
def splitCommaChars : List Char → List (List Char)
  | [] => [[]]
  | c :: rest =>
    if c = ',' then [] :: splitCommaChars rest
    else
      match splitCommaChars rest with
      | [] => [[c]]
      | h :: t => (c :: h) :: t

/-- Embeds JavaScript's `String.prototype.split(',')`. -/
def jsSplitComma (s : String) : List String :=
  (splitCommaChars s.data).map (fun cs => ⟨cs⟩)

/-- Embeds lines 68–79 of the source (`retryWithApiKeyRotation`): a failure
is classified rotatable (retryable) when its message is truthy and contains
one of the ten allow-listed substrings; the `msg = ""` guard mirrors the
JavaScript truthiness check `error.message && (...)`. -/
def isRotatableError (msg : String) : Bool :=
  if msg = "" then false
  else
    strIncludes msg "429" || strIncludes msg "Too Many Requests" ||
    strIncludes msg "quota" || strIncludes msg "rate limit" ||
    strIncludes msg "exceeded your current quota" || strIncludes msg "API key not valid" ||
    strIncludes msg "503" || strIncludes msg "Service Unavailable" ||
    strIncludes msg "overloaded" || strIncludes msg "Please try again later"

/-- Embeds `resolveApiKeys` (source lines 19–31).  `none` models an unset
`GEMINI_API_KEY`; the `s = ""` test mirrors the JavaScript falsiness check
`!envApiKey`; note the no-comma branch returns the raw value `[s]`, without
trimming. -/
def resolveApiKeys : Option String → List String
  | none => []
  | some s =>
    if s = "" then []
    else if strIncludes s "," then
      ((jsSplitComma s).map jsTrim).filter (fun k => decide (0 < k.length))
    else [s]

/-- Outcome of a single invocation of the operation
(`requestFn` applied to the model built by `createModelFn`): it either
returns a value or raises an error carrying a message.  The outcome oracle
passed to the executor maps the attempt number and the selected credential
to the outcome, which models any deterministic behaviour of the
caller-supplied closures. -/
inductive AttemptOutcome (T : Type) where
  | ok (v : T)
  | err (msg : String)

/-- Terminal outcome of `retryWithApiKeyRotation`: a returned value, the
re-raised fatal error, or the synthesized deadline error of source line 105
(carrying its message plus the data the message was built from). -/
inductive RotResult (T : Type) where
  | ok (v : T)
  | fatal (msg : String)
  | deadline (msg : String) (attempts poolSize : Nat) (lastErr : Option String)

/-- Observable trace of one executor run: the terminal result, the key
index selected at each attempt (in order), and the console log lines. -/
structure RunTrace (T : Type) where
  result : RotResult T
  attempts : List Nat
  logs : List String

/-- The message of the error thrown at source line 105; the
`lastError?.message || 'Unknown error'` fallback also applies to an empty
message (JavaScript falsiness). -/
def deadlineMessage (attempts poolSize : Nat) (lastErr : Option String) : String :=
  "Gemini API requests failed after 4 minutes with " ++ toString attempts ++
  " attempts across " ++ toString poolSize ++
  " API keys. All keys hit rate limits. Last error: " ++
  (match lastErr with
   | none => "Unknown error"
   | some m => if m = "" then "Unknown error" else m)

/-- The human-readable rotation reason of source lines 86–88. -/
def rotationErrorType (msg : String) : String :=
  if strIncludes msg "API key not valid" then "Invalid API key"
  else if strIncludes msg "503" || strIncludes msg "overloaded" then "Service overloaded"
  else "Rate limit hit"

/-- `Math.ceil(x / 1000)` on an integer number of milliseconds. -/
def jsCeilDiv1000 (x : Int) : Int := (x + 999).fdiv 1000

/-- Console line of source line 45. -/
def startLogLine (poolSize : Nat) : String :=
  "🔄 Starting API request with " ++ toString poolSize ++ " key(s) rotation..."

/-- Console line of source line 51. -/
def attemptLogLine (attempt keyIndex poolSize : Nat) : String :=
  "🔑 Attempt " ++ toString attempt ++ " with key " ++ toString (keyIndex + 1) ++
  "/" ++ toString poolSize

/-- Console line of source line 58 (printed only when `attemptCount > 1`). -/
def successLogLine (attempt keyIndex : Nat) : String :=
  "✅ API request successful after " ++ toString attempt ++ " attempts with key " ++
  toString (keyIndex + 1)

/-- Console line of source line 65. -/
def failLogLine (keyIndex : Nat) (msg : String) : String :=
  "❌ API request failed with key " ++ toString (keyIndex + 1) ++ ": " ++ msg

/-- Console line of source line 90; `elapsedNow` is the elapsed wall-clock
time when the rotation happens (after the failed attempt's operation). -/
def rotationLogLine (msg : String) (keyIndex newIndex maxDurationMs elapsedNow : Nat) : String :=
  "🔄 API Key Rotation: " ++ rotationErrorType msg ++ " - switching from key " ++
  toString (keyIndex + 1) ++ " to key " ++ toString (newIndex + 1) ++ " (" ++
  toString (jsCeilDiv1000 ((maxDurationMs : Int) - (elapsedNow : Int))) ++ "s remaining)"

/-- Console line of source line 98. -/
def fatalLogLine (msg : String) : String := "💥 Non-rotatable API error: " ++ msg

/-- Console line of source line 104. -/
def timeoutLogLine (attempts poolSize : Nat) : String :=
  "⏰ API request failed after 4 minutes with " ++ toString attempts ++
  " attempts across " ++ toString poolSize ++ " API keys"

/-- The loop of `retryWithApiKeyRotation` (source lines 47–105), embedded
with explicit state: `keyIndex`, `attemptCount`, `lastError` and the
elapsed wall-clock time `elapsed` (ms since `startTime`).  `op n key` is
the outcome of the `n`-th invocation of the operation with credential
`key`; `opTime n` is the wall-clock duration of that invocation; every
rotation adds the fixed 1000 ms delay of source line 93.  `fuel` bounds the
recursion; since each rotation adds at least 1000 ms of elapsed time, any
`fuel > maxDurationMs` is never exhausted, and the fuel-out branch repeats
the deadline branch so the two exits agree. -/
def retryLoop {T : Type} (op : Nat → String → AttemptOutcome T) (opTime : Nat → Nat)
    (apiKeys : List String) (maxDurationMs : Nat) :
    Nat → Nat → Option String → Nat → Nat → RunTrace T
  | _keyIndex, attemptCount, lastError, _elapsed, 0 =>
    ⟨.deadline (deadlineMessage attemptCount apiKeys.length lastError)
       attemptCount apiKeys.length lastError,
     [], [timeoutLogLine attemptCount apiKeys.length]⟩
  | keyIndex, attemptCount, lastError, elapsed, fuel + 1 =>
    if maxDurationMs ≤ elapsed then
      ⟨.deadline (deadlineMessage attemptCount apiKeys.length lastError)
         attemptCount apiKeys.length lastError,
       [], [timeoutLogLine attemptCount apiKeys.length]⟩
    else
      match op (attemptCount + 1) (apiKeys.getD keyIndex "") with
      | .ok v =>
        ⟨.ok v, [keyIndex],
         if 1 < attemptCount + 1 then
           [attemptLogLine (attemptCount + 1) keyIndex apiKeys.length,
            successLogLine (attemptCount + 1) keyIndex]
         else [attemptLogLine (attemptCount + 1) keyIndex apiKeys.length]⟩
      | .err m =>
        if isRotatableError m then
          ⟨(retryLoop op opTime apiKeys maxDurationMs ((keyIndex + 1) % apiKeys.length)
              (attemptCount + 1) (some m) (elapsed + opTime (attemptCount + 1) + 1000) fuel).result,
           keyIndex ::
             (retryLoop op opTime apiKeys maxDurationMs ((keyIndex + 1) % apiKeys.length)
               (attemptCount + 1) (some m) (elapsed + opTime (attemptCount + 1) + 1000) fuel).attempts,
           attemptLogLine (attemptCount + 1) keyIndex apiKeys.length ::
             failLogLine keyIndex m ::
             rotationLogLine m keyIndex ((keyIndex + 1) % apiKeys.length) maxDurationMs
               (elapsed + opTime (attemptCount + 1)) ::
             (retryLoop op opTime apiKeys maxDurationMs ((keyIndex + 1) % apiKeys.length)
               (attemptCount + 1) (some m) (elapsed + opTime (attemptCount + 1) + 1000) fuel).logs⟩
        else
          ⟨.fatal m, [keyIndex],
           [attemptLogLine (attemptCount + 1) keyIndex apiKeys.length,
            failLogLine keyIndex m, fatalLogLine m]⟩

/-- The hardcoded default budget `4 * 60 * 1000` ms of source line 38. -/
def defaultMaxDurationMs : Nat := 4 * 60 * 1000

/-- Embeds `retryWithApiKeyRotation` (source lines 34–106): start at key
index 0, attempt count 0, no last error, zero elapsed time; the initial
fuel `maxDurationMs + 1` is never exhausted (each iteration adds at least
1000 ms to `elapsed`, which the guard compares against `maxDurationMs`). -/
def retryWithApiKeyRotation {T : Type} (op : Nat → String → AttemptOutcome T)
    (opTime : Nat → Nat) (apiKeys : List String) (maxDurationMs : Nat) : RunTrace T :=
  ⟨(retryLoop op opTime apiKeys maxDurationMs 0 0 none 0 (maxDurationMs + 1)).result,
   (retryLoop op opTime apiKeys maxDurationMs 0 0 none 0 (maxDurationMs + 1)).attempts,
   startLogLine apiKeys.length ::
     (retryLoop op opTime apiKeys maxDurationMs 0 0 none 0 (maxDurationMs + 1)).logs⟩

/-- Elapsed wall-clock time at the loop guard after `j` consecutive
retryable failures, starting from elapsed time `e` and attempt counter
`a`: each failure adds its operation's duration plus the 1000 ms rotation
delay. -/
def elapsedAfter (opTime : Nat → Nat) : Nat → Nat → Nat → Nat
  | e, _, 0 => e
  | e, a, j + 1 => elapsedAfter opTime (e + opTime (a + 1) + 1000) (a + 1) j

/-- A tool response of the MCP layer: rendered text plus the `isError`
flag. -/
structure McpResponse where
  text : String
  isError : Bool

/-- The response text of the `analyze_local_folder` handler when the
resolved pool is empty (source lines 886–911). -/
def noApiKeyResponseText : String :=
  "# Local Folder Analysis - API Key Required\n\n❌ **No Gemini API key found**\n\n" ++
  "**Please set your Gemini API key:**\n```bash\nexport GEMINI_API_KEY=\"your-api-key-here\"\n```\n\n" ++
  "**Get your API key at:** https://makersuite.google.com/app/apikey\n\n" ++
  "**For permanent setup, add to your shell profile:**\n" ++
  "- ~/.bashrc or ~/.zshrc: `export GEMINI_API_KEY=\"your-key\"`\n" ++
  "- Windows: Set environment variable in System Properties\n\n" ++
  "**For Smithery AI deployment:**\nSet `geminiApiKey` in your server configuration."

/-- Embeds the credential-relevant prefix of the `analyze_local_folder`
handler (source lines 879–911): resolve the pool from the environment;
when it is empty, return the API-key-required error response without doing
anything else; otherwise continue with the rest of the handler (folder
read, prompt assembly and the `retryWithApiKeyRotation` call), abstracted
here as `work` applied to the resolved pool. -/
def analyzeLocalFolderEntry (env : Option String) (work : List String → McpResponse) :
    McpResponse :=
  if (resolveApiKeys env).length = 0 then ⟨noApiKeyResponseText, true⟩
  else work (resolveApiKeys env)

/-- The API-key request arguments accepted by every tool schema
(`generateApiKeyFields`, source lines 286–298): `geminiApiKeys`,
`geminiApiKeysArray` and the numbered `geminiApiKey2` … `geminiApiKey100`
fields (modelled as a map from the number to the optional value). -/
structure ApiKeyRequestArgs where
  geminiApiKeys : Option String
  geminiApiKeysArray : Option (List String)
  numberedKeys : Nat → Option String

/-- The parsed arguments of `analyze_local_folder`
(`LocalFolderAnalyzerSchema`, source lines 322–377). -/
structure AnalyzeFolderArgs where
  folderPath : String
  question : String
  projectName : Option String
  analysisMode : Option String
  apiKeyArgs : ApiKeyRequestArgs

/-- The credential pool used by the `analyze_local_folder` handler: source
line 884 calls `resolveApiKeys()`, which reads only the `GEMINI_API_KEY`
environment variable; no field of the parsed request arguments is
consulted. -/
def analyzeFolderPool (env : Option String) (_args : AnalyzeFolderArgs) : List String :=
  resolveApiKeys env

/-- Embeds the key masking of the `check_api_key_status` handler (source
line 797): first eight characters, an ellipsis, and the last four
characters of the credential (JavaScript `substring` clamps out-of-range
indices, as `List.take`/`List.drop` and truncated subtraction do here). -/
def maskKey (key : String) : String :=
  ⟨key.data.take 8⟩ ++ "..." ++ ⟨key.data.drop (key.length - 4)⟩

/-- Embeds the rotation schedule preview of the `check_api_key_status`
handler (source lines 796–799): the first ten keys, each rendered as
`<position>. <masked key>`, joined by newlines.  This string is
interpolated into the handler's response text whenever the pool has more
than one key (source lines 817–829). -/
def rotationPreview (apiKeys : List String) : String :=
  String.intercalate "\n"
    ((apiKeys.take 10).enum.map (fun p => toString (p.1 + 1) ++ ". " ++ maskKey p.2))

theorem string_data_append (a b : String) : (a ++ b).data = a.data ++ b.data := rfl

theorem string_eq_of_data_eq {a b : String} (h : a.data = b.data) : a = b := by
  cases a; cases b; exact congrArg String.mk h

theorem strIncludes_iff (s pat : String) : strIncludes s pat = true ↔ ContainsSub s pat := by
  unfold strIncludes ContainsSub
  rw [decide_eq_true_iff]
  constructor
  · rintro ⟨l, r, h⟩
    refine ⟨⟨l⟩, ⟨r⟩, string_eq_of_data_eq ?_⟩
    simpa [string_data_append] using h.symm
  · rintro ⟨pre, post, rfl⟩
    exact ⟨pre.data, post.data, by simp [string_data_append]⟩

theorem not_containsSub_empty {pat : String} (h : pat ≠ "") : ¬ ContainsSub "" pat := by
  rintro ⟨pre, post, he⟩
  apply h
  have hd : pre.data ++ pat.data ++ post.data = ([] : List Char) := by
    have := congrArg String.data he
    simpa [string_data_append] using this.symm
  have h2 : pat.data = [] := (List.append_eq_nil.mp (List.append_eq_nil.mp hd).1).2
  exact string_eq_of_data_eq (by simpa using h2)

/-- C1: the classifier returns `Retryable` (true) exactly when the message
contains, case-sensitively, at least one of the ten allow-listed
substrings; every other message is classified `Fatal` (false). -/
theorem c1_error_classification (m : String) :
    isRotatableError m = true ↔
      (ContainsSub m "429" ∨ ContainsSub m "Too Many Requests" ∨ ContainsSub m "quota" ∨
       ContainsSub m "rate limit" ∨ ContainsSub m "exceeded your current quota" ∨
       ContainsSub m "API key not valid" ∨ ContainsSub m "503" ∨
       ContainsSub m "Service Unavailable" ∨ ContainsSub m "overloaded" ∨
       ContainsSub m "Please try again later") := by
  unfold isRotatableError
  by_cases hm : m = ""
  · subst hm
    simp only [if_pos rfl]
    constructor
    · intro h; exact absurd h (by simp)
    · rintro (h | h | h | h | h | h | h | h | h | h) <;>
        exact absurd h (not_containsSub_empty (by decide))
  · rw [if_neg hm]
    simp only [Bool.or_eq_true, strIncludes_iff]
    tauto

/-- C5 counterexample: a whitespace-only value with no comma is returned
verbatim, not trimmed and not dropped, so the pool contains a
whitespace-only entry (contradicting both halves of the claim). -/
theorem c5_counterexample :
    resolveApiKeys (some " ") = [" "] ∧ jsTrim " " = "" := by
  constructor <;> rfl

/-- C5 amended: in the no-comma branch the resolver returns the raw value
as a one-element pool without trimming it (so a whitespace-only value
survives untrimmed); only an absent or empty raw value yields the empty
pool. -/
theorem c5_no_comma_branch :
    (∀ s : String, s ≠ "" → strIncludes s "," = false → resolveApiKeys (some s) = [s]) ∧
    resolveApiKeys (some "") = [] ∧ resolveApiKeys none = [] := by
  refine ⟨?_, rfl, rfl⟩
  intro s hne hc
  simp only [resolveApiKeys, if_neg hne, hc]
  simp

/-- C5 amended, witness at a concrete input. -/
theorem c5_no_comma_branch_witness : resolveApiKeys (some "abc") = ["abc"] :=
  c5_no_comma_branch.1 "abc" (by decide) (by decide)

/-- C6: for a value containing a comma the resolver splits on commas, trims
each part, drops empty parts, preserves order and does not deduplicate;
including the spec's concrete examples. -/
theorem c6_comma_split :
    (∀ s : String, strIncludes s "," = true →
       resolveApiKeys (some s) =
         ((jsSplitComma s).map jsTrim).filter (fun k => decide (0 < k.length))) ∧
    resolveApiKeys (some "a, b ,c") = ["a", "b", "c"] ∧
    resolveApiKeys (some "a,,b") = ["a", "b"] ∧
    resolveApiKeys (some "a,a") = ["a", "a"] ∧
    resolveApiKeys none = [] ∧ resolveApiKeys (some "") = [] := by
  refine ⟨?_, by decide, by decide, by decide, rfl, rfl⟩
  intro s hc
  have hne : s ≠ "" := by
    intro h; subst h
    exact absurd ((strIncludes_iff _ _).mp hc) (not_containsSub_empty (by decide))
  simp only [resolveApiKeys, if_neg hne, hc]
  simp

/-- C6, witness at a concrete input. -/
theorem c6_comma_split_witness :
    resolveApiKeys (some "x,y") =
      ((jsSplitComma "x,y").map jsTrim).filter (fun k => decide (0 < k.length)) :=
  c6_comma_split.1 "x,y" (by decide)

theorem string_append_assoc (a b c : String) : a ++ b ++ c = a ++ (b ++ c) :=
  string_eq_of_data_eq (by simp [string_data_append, List.append_assoc])

theorem strIncludes_empty_pat (s : String) : strIncludes s "" = true := by
  unfold strIncludes
  exact decide_eq_true ⟨[], s.data, by simp⟩

theorem deadlineMessage_contains (att p : Nat) (le : Option String) :
    strIncludes (deadlineMessage att p le) (toString att) = true ∧
    strIncludes (deadlineMessage att p le) (toString p) = true ∧
    ∀ m, le = some m → strIncludes (deadlineMessage att p le) m = true := by
  refine ⟨?_, ?_, ?_⟩
  · apply (strIncludes_iff _ _).mpr
    refine ⟨"Gemini API requests failed after 4 minutes with ",
      " attempts across " ++ toString p ++
        " API keys. All keys hit rate limits. Last error: " ++
        (match le with
         | none => "Unknown error"
         | some m => if m = "" then "Unknown error" else m), ?_⟩
    exact string_eq_of_data_eq (by simp [deadlineMessage, string_data_append, List.append_assoc])
  · apply (strIncludes_iff _ _).mpr
    refine ⟨"Gemini API requests failed after 4 minutes with " ++ toString att ++
      " attempts across ",
      " API keys. All keys hit rate limits. Last error: " ++
        (match le with
         | none => "Unknown error"
         | some m => if m = "" then "Unknown error" else m), ?_⟩
    exact string_eq_of_data_eq (by simp [deadlineMessage, string_data_append, List.append_assoc])
  · intro m hm
    subst hm
    by_cases hm0 : m = ""
    · subst hm0; exact strIncludes_empty_pat _
    · apply (strIncludes_iff _ _).mpr
      refine ⟨"Gemini API requests failed after 4 minutes with " ++ toString att ++
        " attempts across " ++ toString p ++
        " API keys. All keys hit rate limits. Last error: ", "", ?_⟩
      exact string_eq_of_data_eq
        (by simp [deadlineMessage, string_data_append, List.append_assoc, hm0])

theorem retryLoop_deadline_shape {T : Type} (op : Nat → String → AttemptOutcome T)
    (opTime : Nat → Nat) (apiKeys : List String) (maxDurationMs : Nat) :
    ∀ (fuel keyIndex attemptCount : Nat) (lastError : Option String) (elapsed : Nat)
      (msg : String) (att p : Nat) (le : Option String),
      (retryLoop op opTime apiKeys maxDurationMs keyIndex attemptCount lastError elapsed
          fuel).result = .deadline msg att p le →
      msg = deadlineMessage att p le ∧ p = apiKeys.length ∧ attemptCount ≤ att := by
  intro fuel
  induction fuel with
  | zero =>
    intro keyIndex attemptCount lastError elapsed msg att p le h
    simp only [retryLoop, RotResult.deadline.injEq] at h
    obtain ⟨h1, h2, h3, h4⟩ := h
    subst h2; subst h3; subst h4
    exact ⟨h1.symm, rfl, le_refl _⟩
  | succ fuel ih =>
    intro keyIndex attemptCount lastError elapsed msg att p le h
    simp only [retryLoop] at h
    by_cases hg : maxDurationMs ≤ elapsed
    · rw [if_pos hg] at h
      simp only [RotResult.deadline.injEq] at h
      obtain ⟨h1, h2, h3, h4⟩ := h
      subst h2; subst h3; subst h4
      exact ⟨h1.symm, rfl, le_refl _⟩
    · rw [if_neg hg] at h
      rcases hop : op (attemptCount + 1) (apiKeys.getD keyIndex "") with v | m'
      · rw [hop] at h; simp at h
      · rw [hop] at h
        by_cases hr : isRotatableError m' = true
        · have h' := by simpa [hr] using h
          obtain ⟨e1, e2, e3⟩ := ih _ _ _ _ _ _ _ _ h'
          exact ⟨e1, e2, by omega⟩
        · simp [hr] at h

theorem retryLoop_fatal_not_rot {T : Type} (op : Nat → String → AttemptOutcome T)
    (opTime : Nat → Nat) (apiKeys : List String) (maxDurationMs : Nat) (m : String) :
    ∀ (fuel keyIndex attemptCount : Nat) (lastError : Option String) (elapsed : Nat),
      (retryLoop op opTime apiKeys maxDurationMs keyIndex attemptCount lastError elapsed
          fuel).result = .fatal m →
      isRotatableError m = false := by
  intro fuel
  induction fuel with
  | zero =>
    intro keyIndex attemptCount lastError elapsed h
    simp [retryLoop] at h
  | succ fuel ih =>
    intro keyIndex attemptCount lastError elapsed h
    simp only [retryLoop] at h
    by_cases hg : maxDurationMs ≤ elapsed
    · rw [if_pos hg] at h; simp at h
    · rw [if_neg hg] at h
      rcases hop : op (attemptCount + 1) (apiKeys.getD keyIndex "") with v | m'
      · rw [hop] at h; simp at h
      · rw [hop] at h
        by_cases hr : isRotatableError m' = true
        · exact ih _ _ _ _ (by simpa [hr] using h)
        · have hmm : m' = m := by simpa [hr] using h
          subst hmm
          simpa using hr

/-- C3: a fatal (non-retryable) failure on the first invocation is
re-raised with its message intact after exactly one attempt, using key
index 0 only, for every pool. -/
theorem c3_fatal_first_attempt {T : Type} (op : Nat → String → AttemptOutcome T)
    (opTime : Nat → Nat) (apiKeys : List String) (maxDurationMs : Nat) (m : String)
    (hmax : 0 < maxDurationMs)
    (hop : ∀ key, op 1 key = .err m)
    (hfatal : isRotatableError m = false) :
    (retryWithApiKeyRotation op opTime apiKeys maxDurationMs).result = .fatal m ∧
    (retryWithApiKeyRotation op opTime apiKeys maxDurationMs).attempts = [0] := by
  have h1 : maxDurationMs ≠ 0 := by omega
  constructor <;>
    simp [retryWithApiKeyRotation, retryLoop, h1, hop, hfatal]

/-- C3 witness: a pool of two keys and an operation that always fails with
the non-retryable message "boom". -/
theorem c3_fatal_first_attempt_witness :
    (retryWithApiKeyRotation (fun _ _ => (AttemptOutcome.err "boom" : AttemptOutcome Nat))
        (fun _ => 0) ["a", "b"] 240000).result = .fatal "boom" ∧
    (retryWithApiKeyRotation (fun _ _ => (AttemptOutcome.err "boom" : AttemptOutcome Nat))
        (fun _ => 0) ["a", "b"] 240000).attempts = [0] :=
  c3_fatal_first_attempt _ _ _ _ "boom" (by omega) (fun _ => rfl) (by decide)

/-- C4: whenever the executor ends with the deadline-elapsed terminal
error, the error's message contains the total attempt count, the pool
size (which equals the input pool's length) and the last observed error's
message; and a result surfaced as a thrown (fatal) error is never
retryable-classified. -/
theorem c4_deadline_error {T : Type} (op : Nat → String → AttemptOutcome T)
    (opTime : Nat → Nat) (apiKeys : List String) (maxDurationMs : Nat)
    (msg : String) (att p : Nat) (le : Option String) :
    ((retryWithApiKeyRotation op opTime apiKeys maxDurationMs).result =
        .deadline msg att p le →
      p = apiKeys.length ∧
      strIncludes msg (toString att) = true ∧
      strIncludes msg (toString p) = true ∧
      (∀ m, le = some m → strIncludes msg m = true)) ∧
    (∀ m, (retryWithApiKeyRotation op opTime apiKeys maxDurationMs).result = .fatal m →
      isRotatableError m = false) := by
  constructor
  · intro h
    have h' : (retryLoop op opTime apiKeys maxDurationMs 0 0 none 0
        (maxDurationMs + 1)).result = .deadline msg att p le := h
    obtain ⟨hmsg, hp, -⟩ :=
      retryLoop_deadline_shape op opTime apiKeys maxDurationMs _ _ _ _ _ _ _ _ _ h'
    subst hmsg
    obtain ⟨ca, cp, cl⟩ := deadlineMessage_contains att p le
    exact ⟨hp, ca, cp, cl⟩
  · intro m h
    exact retryLoop_fatal_not_rot op opTime apiKeys maxDurationMs m _ _ _ _ _ h

/-- C4 witness: one key, a 1 ms budget and an operation that always fails
with "429"; the deadline error is raised after one attempt and its message
contains the attempt count, the pool size and the last error. -/
theorem c4_deadline_error_witness :
    strIncludes (deadlineMessage 1 1 (some "429")) (toString 1) = true ∧
    strIncludes (deadlineMessage 1 1 (some "429")) "429" = true := by
  have h := (c4_deadline_error
    (fun _ _ => (AttemptOutcome.err "429" : AttemptOutcome Nat)) (fun _ => 0) ["k"] 1
    (deadlineMessage 1 1 (some "429")) 1 1 (some "429")).1 rfl
  exact ⟨h.2.1, h.2.2.2 "429" rfl⟩

/-- C10: with a non-empty pool and a strictly positive budget the first
deadline check passes (elapsed time is zero), so at least one attempt is
performed, and any deadline-elapsed error reports an attempt count of at
least one. -/
theorem c10_at_least_one_attempt {T : Type} (op : Nat → String → AttemptOutcome T)
    (opTime : Nat → Nat) (apiKeys : List String) (maxDurationMs : Nat)
    (_hkeys : apiKeys ≠ []) (hmax : 0 < maxDurationMs) :
    1 ≤ (retryWithApiKeyRotation op opTime apiKeys maxDurationMs).attempts.length ∧
    (∀ msg att p le,
      (retryWithApiKeyRotation op opTime apiKeys maxDurationMs).result =
          .deadline msg att p le →
      1 ≤ att) := by
  have h1 : ¬ (maxDurationMs ≤ 0) := by omega
  constructor
  · simp only [retryWithApiKeyRotation, retryLoop, if_neg h1]
    rcases hop : op (0 + 1) (apiKeys.getD 0 "") with v | m
    · simp
    · by_cases hr : isRotatableError m = true <;> simp [hr]
  · intro msg att p le h
    simp only [retryWithApiKeyRotation, retryLoop, if_neg h1] at h
    rcases hop : op (0 + 1) (apiKeys.getD 0 "") with v | m
    · rw [hop] at h; simp at h
    · rw [hop] at h
      by_cases hr : isRotatableError m = true
      · have h' := by simpa [hr] using h
        obtain ⟨-, -, hle⟩ :=
          retryLoop_deadline_shape op opTime apiKeys maxDurationMs _ _ _ _ _ _ _ _ _ h'
        exact hle
      · simp [hr] at h

/-- C10 witness: a single key, the default budget and an operation that
succeeds immediately. -/
theorem c10_at_least_one_attempt_witness :
    1 ≤ (retryWithApiKeyRotation (fun _ _ => AttemptOutcome.ok (0 : Nat))
        (fun _ => 0) ["k"] 240000).attempts.length :=
  (c10_at_least_one_attempt _ _ _ _ (by simp) (by omega)).1

theorem list_map_congr {α β : Type} (l : List α) (f g : α → β) (h : ∀ x ∈ l, f x = g x) :
    l.map f = l.map g := by
  induction l with
  | nil => rfl
  | cons a l ih =>
    simp only [List.map_cons]
    rw [h a (by simp), ih (fun x hx => h x (by simp [hx]))]

theorem elapsedAfter_lower (opTime : Nat → Nat) :
    ∀ (j e a : Nat), e + 1000 * j ≤ elapsedAfter opTime e a j := by
  intro j
  induction j with
  | zero => intro e a; simp [elapsedAfter]
  | succ j ih =>
    intro e a
    have h := ih (e + opTime (a + 1) + 1000) (a + 1)
    have he : elapsedAfter opTime e a (j + 1) =
        elapsedAfter opTime (e + opTime (a + 1) + 1000) (a + 1) j := rfl
    omega

theorem retryLoop_ok_run {T : Type} (op : Nat → String → AttemptOutcome T)
    (opTime : Nat → Nat) (apiKeys : List String) (maxDurationMs : Nat) (v : T) :
    ∀ (K keyIndex attemptCount : Nat) (lastError : Option String) (elapsed fuel : Nat),
      keyIndex < apiKeys.length →
      (∀ j key, attemptCount < j → j ≤ attemptCount + K →
        ∃ m, op j key = .err m ∧ isRotatableError m = true) →
      (∀ key, op (attemptCount + K + 1) key = .ok v) →
      (∀ j, j ≤ K → elapsedAfter opTime elapsed attemptCount j < maxDurationMs) →
      K + 1 ≤ fuel →
      (retryLoop op opTime apiKeys maxDurationMs keyIndex attemptCount lastError elapsed
          fuel).result = .ok v ∧
      (retryLoop op opTime apiKeys maxDurationMs keyIndex attemptCount lastError elapsed
          fuel).attempts =
        (List.range (K + 1)).map (fun j => (keyIndex + j) % apiKeys.length) := by
  intro K
  induction K with
  | zero =>
    intro keyIndex attemptCount lastError elapsed fuel hki hfail hok htime hfuel
    obtain ⟨f, rfl⟩ : ∃ f, fuel = f + 1 := ⟨fuel - 1, by omega⟩
    have hg : ¬ (maxDurationMs ≤ elapsed) := by
      have h0 := htime 0 (le_refl 0)
      simp only [elapsedAfter] at h0
      omega
    have hoke : ∀ key, op (attemptCount + 1) key = .ok v := fun key => by
      simpa using hok key
    constructor
    · simp only [retryLoop, if_neg hg, hoke]
    · simp only [retryLoop, if_neg hg, hoke]
      simp [List.range_succ, Nat.mod_eq_of_lt hki]
  | succ K ih =>
    intro keyIndex attemptCount lastError elapsed fuel hki hfail hok htime hfuel
    obtain ⟨f, rfl⟩ : ∃ f, fuel = f + 1 := ⟨fuel - 1, by omega⟩
    have hlen : 0 < apiKeys.length := by omega
    have hg : ¬ (maxDurationMs ≤ elapsed) := by
      have h0 := htime 0 (by omega)
      simp only [elapsedAfter] at h0
      omega
    obtain ⟨m, hm, hrot⟩ :=
      hfail (attemptCount + 1) (apiKeys.getD keyIndex "") (by omega) (by omega)
    have hki' : (keyIndex + 1) % apiKeys.length < apiKeys.length := Nat.mod_lt _ hlen
    obtain ⟨ihr, iha⟩ := ih ((keyIndex + 1) % apiKeys.length) (attemptCount + 1) (some m)
      (elapsed + opTime (attemptCount + 1) + 1000) f hki'
      (fun j key hj1 hj2 => hfail j key (by omega) (by omega))
      (fun key => by
        have h0 := hok key
        rw [show attemptCount + 1 + K + 1 = attemptCount + (K + 1) + 1 by omega]
        exact h0)
      (fun j hj => by
        have h0 := htime (j + 1) (by omega)
        simpa only [elapsedAfter] using h0)
      (by omega)
    have hrange : (List.range (K + 1 + 1)).map (fun j => (keyIndex + j) % apiKeys.length) =
        keyIndex ::
          (List.range (K + 1)).map
            (fun j => (((keyIndex + 1) % apiKeys.length) + j) % apiKeys.length) := by
      rw [List.range_succ_eq_map, List.map_cons, List.map_map]
      congr 1
      · simp [Nat.mod_eq_of_lt hki]
      · apply list_map_congr
        intro x hx
        simp only [Function.comp_apply]
        rw [Nat.mod_add_mod]
        congr 1
        omega
    constructor
    · simp only [retryLoop, if_neg hg, hm, hrot, eq_self_iff_true, if_true]
      exact ihr
    · simp only [retryLoop, if_neg hg, hm, hrot, eq_self_iff_true, if_true]
      rw [iha, hrange]

/-- C2 amended: for a pool of size N ≥ 1 and an operation that fails
retryably on exactly its first K invocations (K < N) and succeeds on
invocation K + 1, the executor returns that success after exactly K + 1
attempts using key indices 0, 1, …, K in order — provided every one of
those attempts begins before the wall-clock budget elapses (the elapsed
time, i.e. the operation durations plus the fixed 1000 ms delay per
rotation, stays below `maxDurationMs` at each loop guard). -/
theorem c2_success_after_k_failures {T : Type} (op : Nat → String → AttemptOutcome T)
    (opTime : Nat → Nat) (apiKeys : List String) (maxDurationMs : Nat) (K : Nat) (v : T)
    (hK : K < apiKeys.length)
    (hfail : ∀ j key, 1 ≤ j → j ≤ K → ∃ m, op j key = .err m ∧ isRotatableError m = true)
    (hok : ∀ key, op (K + 1) key = .ok v)
    (htime : ∀ j, j ≤ K → elapsedAfter opTime 0 0 j < maxDurationMs) :
    (retryWithApiKeyRotation op opTime apiKeys maxDurationMs).result = .ok v ∧
    (retryWithApiKeyRotation op opTime apiKeys maxDurationMs).attempts =
      List.range (K + 1) := by
  have hfuel : K + 1 ≤ maxDurationMs + 1 := by
    have h1 := elapsedAfter_lower opTime K 0 0
    have h2 := htime K (le_refl K)
    omega
  obtain ⟨hr, ha⟩ := retryLoop_ok_run op opTime apiKeys maxDurationMs v K 0 0 none 0
    (maxDurationMs + 1) (by omega)
    (fun j key h1 h2 => hfail j key (by omega) (by omega))
    (fun key => by simpa using hok key)
    htime hfuel
  refine ⟨hr, ?_⟩
  have hmap : (List.range (K + 1)).map (fun j => (0 + j) % apiKeys.length) =
      List.range (K + 1) := by
    have h0 : ∀ x ∈ List.range (K + 1), (0 + x) % apiKeys.length = x := by
      intro x hx
      have hxK : x < K + 1 := List.mem_range.mp hx
      rw [Nat.zero_add, Nat.mod_eq_of_lt (by omega)]
    rw [list_map_congr _ _ (fun x => x) h0]
    simp
  rw [show (retryWithApiKeyRotation op opTime apiKeys maxDurationMs).attempts =
      (retryLoop op opTime apiKeys maxDurationMs 0 0 none 0 (maxDurationMs + 1)).attempts
      from rfl, ha, hmap]

/-- C2 amended, witness: two keys, one retryable "429" failure, success at
the second attempt with the default budget and instantaneous operations. -/
theorem c2_success_after_k_failures_witness :
    (retryWithApiKeyRotation
        (fun n _ => if n ≤ 1 then AttemptOutcome.err "429" else AttemptOutcome.ok (5 : Nat))
        (fun _ => 0) ["a", "b"] 240000).result = .ok 5 ∧
    (retryWithApiKeyRotation
        (fun n _ => if n ≤ 1 then AttemptOutcome.err "429" else AttemptOutcome.ok (5 : Nat))
        (fun _ => 0) ["a", "b"] 240000).attempts = [0, 1] :=
  c2_success_after_k_failures _ _ ["a", "b"] 240000 1 5 (by decide)
    (fun j key h1 h2 => by
      have hj : j = 1 := by omega
      subst hj
      exact ⟨"429", rfl, by decide⟩)
    (fun key => rfl)
    (fun j hj => by
      match j, hj with
      | 0, _ => decide
      | 1, _ => decide)

set_option maxRecDepth 100000 in
/-- C2 counterexample: with the default 240 000 ms budget, a pool of 241
keys and an operation that fails retryably on its first 240 invocations
and would succeed on invocation 241, the executor does NOT return the
success: after 240 attempts the 240 × 1000 ms rotation delays alone exhaust
the budget and the deadline error is raised instead, so the claim's
unconditional "returns that success result after exactly K+1 attempts"
fails at K = 240, N = 241. -/
theorem c2_counterexample :
    (retryWithApiKeyRotation
        (fun n _ => if n ≤ 240 then AttemptOutcome.err "429" else AttemptOutcome.ok (0 : Nat))
        (fun _ => 0) (List.replicate 241 "k") defaultMaxDurationMs).result
      = .deadline (deadlineMessage 240 241 (some "429")) 240 241 (some "429") := rfl

/-- C7: when the resolved credential pool is empty, the
`analyze_local_folder` handler returns the distinct API-key-required error
response (flagged `isError`) whose text names the missing key, and the rest
of the handler — including every executor attempt — is never invoked: the
handler's output is independent of the work callback. -/
theorem c7_empty_pool_guard (env : Option String) (work : List String → McpResponse)
    (h : resolveApiKeys env = []) :
    analyzeLocalFolderEntry env work = ⟨noApiKeyResponseText, true⟩ ∧
    (∀ work', analyzeLocalFolderEntry env work' = analyzeLocalFolderEntry env work) ∧
    strIncludes noApiKeyResponseText "No Gemini API key found" = true := by
  refine ⟨?_, ?_, by decide⟩
  · simp [analyzeLocalFolderEntry, h]
  · intro work'
    simp [analyzeLocalFolderEntry, h]

/-- C7 witness: unset `GEMINI_API_KEY`. -/
theorem c7_empty_pool_guard_witness :
    analyzeLocalFolderEntry none (fun _ => ⟨"", false⟩) = ⟨noApiKeyResponseText, true⟩ :=
  (c7_empty_pool_guard none (fun _ => ⟨"", false⟩) rfl).1

/-- C8 counterexample: the `check_api_key_status` rotation preview (shown
for pools of more than one key) embeds the masked keys, so two pools of
equal size produce different output, and for a credential of at most eight
characters the preview contains the entire credential value verbatim. -/
theorem c8_counterexample :
    rotationPreview ["AAAABBBB", "CCCCDDDD"] ≠ rotationPreview ["EEEEFFFF", "GGGGHHHH"] ∧
    strIncludes (rotationPreview ["AAAABBBB", "CCCCDDDD"]) "AAAABBBB" = true ∧
    List.length ["AAAABBBB", "CCCCDDDD"] = List.length ["EEEEFFFF", "GGGGHHHH"] :=
  ⟨by decide, by decide, rfl⟩

theorem retryLoop_key_indep {T : Type} (f : Nat → AttemptOutcome T) (opTime : Nat → Nat)
    (keys1 keys2 : List String) (maxDurationMs : Nat)
    (hlen : keys1.length = keys2.length) :
    ∀ (fuel keyIndex attemptCount : Nat) (lastError : Option String) (elapsed : Nat),
      retryLoop (fun n _ => f n) opTime keys1 maxDurationMs keyIndex attemptCount lastError
          elapsed fuel =
      retryLoop (fun n _ => f n) opTime keys2 maxDurationMs keyIndex attemptCount lastError
          elapsed fuel := by
  intro fuel
  induction fuel with
  | zero =>
    intro keyIndex attemptCount lastError elapsed
    simp [retryLoop, hlen]
  | succ fuel ih =>
    intro keyIndex attemptCount lastError elapsed
    by_cases hg : maxDurationMs ≤ elapsed
    · simp [retryLoop, if_pos hg, hlen]
    · rcases hf : f (attemptCount + 1) with v | m
      · simp only [retryLoop, if_neg hg, hf]
        simp [hlen]
      · by_cases hr : isRotatableError m = true
        · simp only [retryLoop, if_neg hg, hf, hr, eq_self_iff_true, if_true, hlen]
          rw [ih]
        · simp only [retryLoop, if_neg hg, hf, hr]
          simp [hlen, hr]

/-- C8 amended: the executor's console log lines, raised error messages and
whole observable trace depend on the credential pool only through its size:
two runs with equal-size pools driven through the same sequence of
operation outcomes are identical.  The claim's blanket "credential values
never appear in any output" fails, however, for the `check_api_key_status`
tool, whose rotation preview embeds maskKey(key) — the first eight and last
four characters of each credential, which for keys of at most eight
characters is the entire credential (see the counterexample). -/
theorem c8_executor_credential_independence {T : Type} (f : Nat → AttemptOutcome T)
    (opTime : Nat → Nat) (keys1 keys2 : List String) (maxDurationMs : Nat)
    (hlen : keys1.length = keys2.length) :
    retryWithApiKeyRotation (fun n _ => f n) opTime keys1 maxDurationMs =
    retryWithApiKeyRotation (fun n _ => f n) opTime keys2 maxDurationMs := by
  have hkey := retryLoop_key_indep f opTime keys1 keys2 maxDurationMs hlen
  simp only [retryWithApiKeyRotation, hkey, hlen]

/-- C8 amended, witness: two distinct single-key pools, an operation that
succeeds immediately; the traces (logs included) coincide. -/
theorem c8_executor_credential_independence_witness :
    retryWithApiKeyRotation (fun _ _ => AttemptOutcome.ok (0 : Nat)) (fun _ => 0)
        ["a"] 240000 =
    retryWithApiKeyRotation (fun _ _ => AttemptOutcome.ok (0 : Nat)) (fun _ => 0)
        ["b"] 240000 :=
  c8_executor_credential_independence (fun _ => AttemptOutcome.ok 0) (fun _ => 0)
    ["a"] ["b"] 240000 rfl

/-- C9: the credential pool of the `analyze_local_folder` handler is
computed solely from the `GEMINI_API_KEY` environment variable; the
API-key request arguments accepted by the tool schema never influence it,
so two invocations differing only in those arguments resolve the same pool
and the executor produces the same trace. -/
theorem c9_pool_ignores_request_args (env : Option String) (a1 a2 : AnalyzeFolderArgs) :
    analyzeFolderPool env a1 = analyzeFolderPool env a2 ∧
    (∀ (T : Type) (op : Nat → String → AttemptOutcome T) (opTime : Nat → Nat),
      retryWithApiKeyRotation op opTime (analyzeFolderPool env a1) defaultMaxDurationMs =
      retryWithApiKeyRotation op opTime (analyzeFolderPool env a2) defaultMaxDurationMs) :=
  ⟨rfl, fun _ _ _ => rfl⟩
